import Mathlib

/-!
Shallow embedding of the authentication facade in
src/services/supabaseAuthService.ts.

The external collaborators (the Supabase identity provider and the
relational profile store) are modelled as explicit parameters:

* the profile-store lookup performed by mapSupabaseUser, isAdmin and
  getUserById is a function from the queried id to a LookupOutcome
  (row found, error-or-missing, or an exception raised by the client);
* the ambient clock (the JavaScript expression building the current
  ISO timestamp) is an explicit String argument named now;
* fallible provider calls are modelled by small outcome inductives.

JavaScript value semantics that matter for the mapped fields are made
explicit: an absent-or-null string field is Option.none, and the
logical-or fallback chains of the source treat the empty string as
falsy, which truthyStr / jsOr / jsOrD / orEmpty capture.  Fields whose
TypeScript type is a required string but which an untyped store row can
leave null at runtime (email, name of a stored row) are modelled as
Option String.
-/

set_option autoImplicit false

namespace Texa

/-- Truthiness of a possibly-absent JavaScript string: null, undefined
and the empty string are falsy, every other string is truthy. -/
def truthyStr : Option String → Bool
  | none => false
  | some s => s != ""

/-- JavaScript logical-or between two possibly-absent strings: the left
operand when it is truthy, otherwise the right operand. -/
def jsOr (a b : Option String) : Option String :=
  if truthyStr a then a else b

/-- JavaScript logical-or against a plain-string default, as in
profile.role || "MEMBER". -/
def jsOrD (a : Option String) (d : String) : String :=
  match a with
  | some s => if s = "" then d else s
  | none => d

/-- JavaScript x || "" where the result is used as a string: an absent
value collapses to the empty string. -/
def orEmpty : Option String → String
  | none => ""
  | some s => s

/-- The local part of an email address: email.split("@")[0] in the
source.  The first component of a JavaScript split at "@" is exactly
the prefix of the string before its first "@" (the whole string when
none occurs), written here with takeWhile so that the kernel can
evaluate it on concrete inputs. -/
def localPart (e : String) : String :=
  String.mk (e.toList.takeWhile (fun c => c != '@'))

/-- The identity-provider user object (Supabase User): id, optional
email, the two user_metadata fields read by the source, and the
provider-issued creation timestamp. -/
structure SupaUser where
  id : String
  email : Option String
  fullName : Option String
  avatarUrl : Option String
  createdAt : String
deriving Repr, DecidableEq

/-- A row of the external users table, with the wire field names of the
source; every column except the primary key can be null/absent. -/
structure ProfileRow where
  id : String
  email : Option String
  name : Option String
  photo_url : Option String
  role : Option String
  is_active : Option Bool
  subscription_end : Option String
  created_at : Option String
  last_login : Option String
deriving Repr, DecidableEq

/-- The canonical local user record (TexaUser in the source).  email
and name are Option String because getUserById copies them verbatim
from an untyped store row, which can leave them null at runtime; role
is a plain string because the runtime passes any stored value through
the || "MEMBER" fallback unchanged. -/
structure TexaUser where
  id : String
  email : Option String
  name : Option String
  photoURL : Option String
  role : String
  isActive : Bool
  subscriptionEnd : Option String
  createdAt : Option String
  lastLogin : Option String
deriving Repr, DecidableEq

/-- Outcome of the single-row store lookup (select .. eq(id) .single()):
a row was found, the client returned an error or no row, or the awaited
call raised an exception caught by the surrounding try block. -/
inductive LookupOutcome where
  | found (row : ProfileRow)
  | errorOrMissing
  | raised
deriving Repr, DecidableEq

/-- The default profile mapSupabaseUser synthesizes when the store
lookup errors or finds no row (lines 33-44 of the source). -/
def defaultFromSession (now : String) (u : SupaUser) : TexaUser :=
  { id := u.id
    email := some (orEmpty u.email)
    name := some (orEmpty (jsOr u.fullName (Option.map localPart u.email)))
    photoURL := some (orEmpty u.avatarUrl)
    role := "MEMBER"
    isActive := true
    subscriptionEnd := none
    createdAt := some u.createdAt
    lastLogin := some now }

/-- The merge of a found store row over session-derived fallbacks
(lines 47-57 of the source). -/
def mergeProfile (now : String) (u : SupaUser) (p : ProfileRow) : TexaUser :=
  { id := p.id
    email := some (orEmpty (jsOr p.email u.email))
    name := some (orEmpty (jsOr p.name u.fullName))
    photoURL := some (orEmpty (jsOr p.photo_url u.avatarUrl))
    role := jsOrD p.role "MEMBER"
    isActive := p.is_active.getD true
    subscriptionEnd := p.subscription_end
    createdAt := p.created_at
    lastLogin := some (jsOrD p.last_login now) }

/-- The minimal user built in the catch branch of mapSupabaseUser
(lines 58-67 of the source); createdAt and lastLogin are omitted
there. -/
def catchFromSession (u : SupaUser) : TexaUser :=
  { id := u.id
    email := some (orEmpty u.email)
    name := some (orEmpty u.fullName)
    photoURL := some (orEmpty u.avatarUrl)
    role := "MEMBER"
    isActive := true
    subscriptionEnd := none
    createdAt := none
    lastLogin := none }

/-- mapSupabaseUser: null input maps to null; otherwise the store row
keyed by the user id is looked up and merged, degrading to
session-only defaults on a lookup error or a raised exception.  The
embedding is a total function, so the source contract that the mapping
never raises is structural. -/
def mapSupabaseUser (lookup : String → LookupOutcome) (now : String) :
    Option SupaUser → Option TexaUser
  | none => none
  | some u =>
    match lookup u.id with
    | LookupOutcome.found p => some (mergeProfile now u p)
    | LookupOutcome.errorOrMissing => some (defaultFromSession now u)
    | LookupOutcome.raised => some (catchFromSession u)

/-- Outcome of the provider signUp call: an error object, a response
with a user, a response without a user, or a raised exception whose
message may be absent. -/
inductive SignUpResponse where
  | err (msg : String)
  | okUser (u : SupaUser)
  | okNoUser
  | raised (msg : Option String)
deriving Repr, DecidableEq

/-- The row signUp upserts into the users table on provider success
(lines 90-98 of the source). -/
structure SignUpUpsert where
  id : String
  email : Option String
  name : String
  role : String
  is_active : Bool
  created_at : String
  last_login : String
deriving Repr, DecidableEq

/-- The upsert payload built by signUp: the id and email come from the
provider-returned user, the name from the optional display name with
the local part of the entered email as fallback. -/
def signUpUpsert (now : String) (email : String) (name : Option String)
    (u : SupaUser) : SignUpUpsert :=
  { id := u.id
    email := u.email
    name := jsOrD name (localPart email)
    role := "MEMBER"
    is_active := true
    created_at := now
    last_login := now }

/-- signUp: returns the list of store upserts it issues together with
the (user, error) result pair.  The provider response and the store
lookup used by the final reconciliation are explicit parameters. -/
def signUp (resp : SignUpResponse) (lookup : String → LookupOutcome)
    (now : String) (email : String) (_password : String)
    (name : Option String) :
    List SignUpUpsert × Option TexaUser × Option String :=
  match resp with
  | SignUpResponse.err msg => ([], none, some msg)
  | SignUpResponse.okUser u =>
      ([signUpUpsert now email name u],
       mapSupabaseUser lookup now (some u), none)
  | SignUpResponse.okNoUser => ([], none, some "Sign up failed")
  | SignUpResponse.raised msg => ([], none, some (jsOrD msg "Sign up failed"))

/-- An auth state-change event pushed by the provider: the session
payload carries the session user when one exists, and every event kind
other than the three the handler inspects is collapsed into other with
its kind string. -/
inductive AuthEvent where
  | signedIn (sessionUser : Option SupaUser)
  | tokenRefreshed (sessionUser : Option SupaUser)
  | signedOut
  | other (kind : String)
deriving Repr, DecidableEq

/-- The conflict-tolerant upsert issued by the onAuthChange handler on
a signed-in or token-refreshed event (lines 208-214 of the source). -/
structure SessionUpsert where
  id : String
  email : Option String
  name : Option String
  photo_url : Option String
  last_login : String
deriving Repr, DecidableEq

/-- The payload of the handler upsert: the name is the metadata full
name, falling back to the local part of the session email when that is
falsy, and staying absent when the email is also absent. -/
def sessionUpsert (now : String) (u : SupaUser) : SessionUpsert :=
  { id := u.id
    email := u.email
    name := jsOr u.fullName (Option.map localPart u.email)
    photo_url := u.avatarUrl
    last_login := now }

/-- One step of the onAuthChange subscription handler (lines 202-221 of
the source): the store upserts it issues and the callback invocations
it performs, in order.  Signed-in and token-refreshed events reconcile
and upsert (when a session user exists) and invoke the callback once;
a signed-out event invokes the callback once with null; every other
event kind does nothing. -/
def handleEvent (lookup : String → LookupOutcome) (now : String) :
    AuthEvent → List SessionUpsert × List (Option TexaUser)
  | AuthEvent.signedIn s =>
      ((match s with
        | some u => [sessionUpsert now u]
        | none => []),
       [mapSupabaseUser lookup now s])
  | AuthEvent.tokenRefreshed s =>
      ((match s with
        | some u => [sessionUpsert now u]
        | none => []),
       [mapSupabaseUser lookup now s])
  | AuthEvent.signedOut => ([], [none])
  | AuthEvent.other _ => ([], [])

/-- Events actually delivered to the handler: unsubscribing after the
first n events deregisters the listener, so only the first n events
reach it.  This models subscription.unsubscribe() of the provider
client, which the returned cleanup closure calls. -/
def deliveredEvents (events : List AuthEvent) (unsubAfter : Option Nat) :
    List AuthEvent :=
  match unsubAfter with
  | none => events
  | some n => events.take n

/-- Callback invocations produced by a list of delivered events, the
clock giving the timestamp current when each event is handled. -/
def handlerCalls (lookup : String → LookupOutcome) (clock : Nat → String) :
    List AuthEvent → Nat → List (Option TexaUser)
  | [], _ => []
  | e :: rest, i =>
      (handleEvent lookup (clock i) e).2 ++ handlerCalls lookup clock rest (i + 1)

/-- Callback invocations of one onAuthChange subscription over a pushed
event stream, cut off at the unsubscribe point when there is one. -/
def subscriptionCalls (lookup : String → LookupOutcome) (clock : Nat → String)
    (events : List AuthEvent) (unsubAfter : Option Nat) :
    List (Option TexaUser) :=
  handlerCalls lookup clock (deliveredEvents events unsubAfter) 0

/-- A partial TexaUser as accepted by updateUserProfile: every field of
the record may be present or absent. -/
structure TexaUserUpdate where
  id : Option String
  email : Option String
  name : Option String
  photoURL : Option String
  role : Option String
  isActive : Option Bool
  subscriptionEnd : Option String
  createdAt : Option String
  lastLogin : Option String
deriving Repr, DecidableEq

/-- The wire payload updateUserProfile sends to the store: only the
five translatable columns exist in it at all. -/
structure UpdatePayload where
  name : Option String
  photo_url : Option String
  role : Option String
  is_active : Option Bool
  subscription_end : Option String
deriving Repr, DecidableEq

/-- Outcome of the store update call: success, an error result, or a
raised exception caught by the try block. -/
inductive UpdateOutcome where
  | ok
  | errored
  | raised
deriving Repr, DecidableEq

/-- The updateData object built field by field from the defined entries
of the partial input (lines 232-237 of the source). -/
def buildUpdateData (updates : TexaUserUpdate) : UpdatePayload :=
  { name := updates.name
    photo_url := updates.photoURL
    role := updates.role
    is_active := updates.isActive
    subscription_end := updates.subscriptionEnd }

/-- updateUserProfile: issues the translated payload keyed by userId to
the store and reports success as a boolean, returning false both on a
store error result and on a raised exception. -/
def updateUserProfile (store : String → UpdatePayload → UpdateOutcome)
    (userId : String) (updates : TexaUserUpdate) : Bool :=
  match store userId (buildUpdateData updates) with
  | UpdateOutcome.ok => true
  | UpdateOutcome.errored => false
  | UpdateOutcome.raised => false

/-- isAdmin: true exactly when the row lookup succeeds and the stored
role is the string ADMIN under strict equality; any error, missing row
or raised exception yields false. -/
def isAdmin (lookup : String → LookupOutcome) (userId : String) : Bool :=
  match lookup userId with
  | LookupOutcome.found p => p.role == some "ADMIN"
  | LookupOutcome.errorOrMissing => false
  | LookupOutcome.raised => false

/-- getUserById: maps a found row with the stored values verbatim,
filling only role (|| MEMBER) and is_active (?? true); the clock
argument every operation of the embedding receives is never read,
because the source builds this record from the row alone with no
current-time default. -/
def getUserById (lookup : String → LookupOutcome) (_now : String)
    (userId : String) : Option TexaUser :=
  match lookup userId with
  | LookupOutcome.found d =>
      some { id := d.id
             email := d.email
             name := d.name
             photoURL := d.photo_url
             role := jsOrD d.role "MEMBER"
             isActive := d.is_active.getD true
             subscriptionEnd := d.subscription_end
             createdAt := d.created_at
             lastLogin := d.last_login }
  | LookupOutcome.errorOrMissing => none
  | LookupOutcome.raised => none

/-- A sample session user for concrete witnesses: email present, no
metadata name and no avatar. -/
def sampleUser : SupaUser :=
  { id := "u1"
    email := some "a@example.com"
    fullName := none
    avatarUrl := none
    createdAt := "T0" }

/-- A sample stored row for concrete witnesses: only the primary key is
set, every other column is null. -/
def sampleRow : ProfileRow :=
  { id := "u1"
    email := none
    name := none
    photo_url := none
    role := none
    is_active := none
    subscription_end := none
    created_at := none
    last_login := none }

/-- A truthy possibly-absent string is recovered from its orEmpty
coercion. -/
theorem some_orEmpty_of_truthy {v : Option String} (h : truthyStr v = true) :
    some (orEmpty v) = v := by
  cases v with
  | none => simp [truthyStr] at h
  | some s => rfl

/-- A falsy possibly-absent string collapses to the empty string. -/
theorem orEmpty_of_falsy {v : Option String} (h : truthyStr v = false) :
    orEmpty v = "" := by
  cases v with
  | none => rfl
  | some s =>
    simp [truthyStr] at h
    simp [orEmpty, h]

/-- jsOr keeps a truthy left operand. -/
theorem jsOr_of_truthy {a : Option String} (b : Option String)
    (h : truthyStr a = true) : jsOr a b = a := by
  simp [jsOr, h]

/-- jsOr discards a falsy left operand. -/
theorem jsOr_of_falsy {a : Option String} (b : Option String)
    (h : truthyStr a = false) : jsOr a b = b := by
  simp [jsOr, h]

/-- Claim C2: mapSupabaseUser returns null exactly on null input; for a
non-null session it is total (the embedding is a Lean function, so it
cannot raise), and both on a store error-or-missing lookup and on a
raised lookup exception it still returns a user built only from the
session fields and the clock (defaultFromSession, catchFromSession). -/
theorem claim_C2 (lookup : String → LookupOutcome) (now : String)
    (ou : Option SupaUser) (u : SupaUser) :
    (mapSupabaseUser lookup now ou = none ↔ ou = none)
    ∧ (lookup u.id = LookupOutcome.errorOrMissing →
        mapSupabaseUser lookup now (some u) = some (defaultFromSession now u))
    ∧ (lookup u.id = LookupOutcome.raised →
        mapSupabaseUser lookup now (some u) = some (catchFromSession u)) := by
  refine ⟨?_, fun h => by simp [mapSupabaseUser, h], fun h => by simp [mapSupabaseUser, h]⟩
  cases ou with
  | none => simp [mapSupabaseUser]
  | some v =>
    simp only [mapSupabaseUser]
    cases lookup v.id <;> simp

/-- Witness for claim C2 at a concrete session and an erroring store. -/
theorem claim_C2_witness :
    (mapSupabaseUser (fun _ => LookupOutcome.errorOrMissing) "T" (some sampleUser) = none
       ↔ (some sampleUser : Option SupaUser) = none)
    ∧ mapSupabaseUser (fun _ => LookupOutcome.errorOrMissing) "T" (some sampleUser)
        = some (defaultFromSession "T" sampleUser) := by
  have h := claim_C2 (fun _ => LookupOutcome.errorOrMissing) "T" (some sampleUser) sampleUser
  exact ⟨h.1, h.2.1 rfl⟩

/-- Claim C3: in the onAuthChange subscription handler, a signed-out
event invokes the callback exactly once with null, any other event
kind invokes it not at all, and events pushed after the unsubscribe
point contribute no callback invocations. -/
theorem claim_C3 (lookup : String → LookupOutcome) (now : String)
    (clock : Nat → String) (kind : String) (events more : List AuthEvent) :
    (handleEvent lookup now AuthEvent.signedOut).2 = [none]
    ∧ (handleEvent lookup now (AuthEvent.other kind)).2 = []
    ∧ subscriptionCalls lookup clock (events ++ more) (some events.length)
        = subscriptionCalls lookup clock events none := by
  refine ⟨rfl, rfl, ?_⟩
  show handlerCalls lookup clock ((events ++ more).take events.length) 0
      = handlerCalls lookup clock events 0
  rw [List.take_left]

/-- Claim C4: the update payload built by updateUserProfile carries
exactly the translated fields present in the partial input, field for
field, and the operation reports false (without raising) both when the
store update returns an error and when it raises. -/
theorem claim_C4 (store : String → UpdatePayload → UpdateOutcome)
    (userId : String) (updates : TexaUserUpdate) :
    (buildUpdateData updates).name = updates.name
    ∧ (buildUpdateData updates).photo_url = updates.photoURL
    ∧ (buildUpdateData updates).role = updates.role
    ∧ (buildUpdateData updates).is_active = updates.isActive
    ∧ (buildUpdateData updates).subscription_end = updates.subscriptionEnd
    ∧ (store userId (buildUpdateData updates) = UpdateOutcome.errored →
        updateUserProfile store userId updates = false)
    ∧ (store userId (buildUpdateData updates) = UpdateOutcome.raised →
        updateUserProfile store userId updates = false) := by
  refine ⟨rfl, rfl, rfl, rfl, rfl, fun h => ?_, fun h => ?_⟩ <;>
    simp [updateUserProfile, h]

/-- The scenario input of claim C4: a partial update carrying only a
name. -/
def annUpdate : TexaUserUpdate :=
  { id := none
    email := none
    name := some "Ann"
    photoURL := none
    role := none
    isActive := none
    subscriptionEnd := none
    createdAt := none
    lastLogin := none }

/-- Witness for claim C4: the name-only input yields a payload whose
name is Ann and whose other columns are all absent, and an erroring
store makes the call return false. -/
theorem claim_C4_witness :
    (buildUpdateData annUpdate).name = some "Ann"
    ∧ (buildUpdateData annUpdate).photo_url = none
    ∧ (buildUpdateData annUpdate).role = none
    ∧ (buildUpdateData annUpdate).is_active = none
    ∧ (buildUpdateData annUpdate).subscription_end = none
    ∧ updateUserProfile (fun _ _ => UpdateOutcome.errored) "u1" annUpdate = false := by
  have h := claim_C4 (fun _ _ => UpdateOutcome.errored) "u1" annUpdate
  exact ⟨h.1, h.2.1, h.2.2.1, h.2.2.2.1, h.2.2.2.2.1, h.2.2.2.2.2.1 rfl⟩

/-- Claim C5: a non-null session whose store lookup errors, finds no
row, or raises maps to a non-null user with role MEMBER and isActive
true. -/
theorem claim_C5 (lookup : String → LookupOutcome) (now : String) (u : SupaUser)
    (h : lookup u.id = LookupOutcome.errorOrMissing
       ∨ lookup u.id = LookupOutcome.raised) :
    Option.map TexaUser.role (mapSupabaseUser lookup now (some u)) = some "MEMBER"
    ∧ Option.map TexaUser.isActive (mapSupabaseUser lookup now (some u)) = some true := by
  rcases h with h | h <;>
    simp [mapSupabaseUser, h, defaultFromSession, catchFromSession]

/-- Witness for claim C5 at a concrete session and a store with no
matching row. -/
theorem claim_C5_witness :
    Option.map TexaUser.role
        (mapSupabaseUser (fun _ => LookupOutcome.errorOrMissing) "T" (some sampleUser))
      = some "MEMBER"
    ∧ Option.map TexaUser.isActive
        (mapSupabaseUser (fun _ => LookupOutcome.errorOrMissing) "T" (some sampleUser))
      = some true :=
  claim_C5 (fun _ => LookupOutcome.errorOrMissing) "T" sampleUser (Or.inl rfl)

/-- Claim C9: getUserById is determined by the store row for the
queried id alone; in particular two calls at different clock instants
with an unchanged store return field-for-field identical values. -/
theorem claim_C9 (lookup1 lookup2 : String → LookupOutcome)
    (now1 now2 : String) (uid : String) (h : lookup1 uid = lookup2 uid) :
    getUserById lookup1 now1 uid = getUserById lookup2 now2 uid := by
  unfold getUserById
  rw [h]

/-- Witness for claim C9 at a concrete row and two distinct clock
instants. -/
theorem claim_C9_witness :
    getUserById (fun _ => LookupOutcome.found sampleRow) "T1" "u1"
      = getUserById (fun _ => LookupOutcome.found sampleRow) "T2" "u1" :=
  claim_C9 (fun _ => LookupOutcome.found sampleRow)
    (fun _ => LookupOutcome.found sampleRow) "T1" "T2" "u1" rfl

/-- Claim C10: updateUserProfile ignores the email, id, createdAt and
lastLogin entries of its partial input: changing them changes neither
the issued payload nor the returned boolean, so the stored email
cannot be altered through this operation. -/
theorem claim_C10 (store : String → UpdatePayload → UpdateOutcome)
    (userId : String) (updates : TexaUserUpdate)
    (e i c l : Option String) :
    buildUpdateData
        { updates with email := e, id := i, createdAt := c, lastLogin := l }
      = buildUpdateData updates
    ∧ updateUserProfile store userId
        { updates with email := e, id := i, createdAt := c, lastLogin := l }
      = updateUserProfile store userId updates := by
  exact ⟨rfl, rfl⟩

/-- Claim C1 as stated is false: when a stored row is found but its
name and the metadata full name are both absent, the mapped name is
the empty string, not the local part of the session email. -/
theorem claim_C1_counterexample :
    Option.map TexaUser.name
        (mapSupabaseUser (fun _ => LookupOutcome.found sampleRow) "T" (some sampleUser))
      = some (some "")
    ∧ localPart "a@example.com" = "a"
    ∧ (some (some "") : Option (Option String)) ≠ some (some "a") :=
  ⟨rfl, rfl, by decide⟩

/-- Claim C1 amended: the name fallback chain depends on the branch.
With a found stored row the chain is stored name, then metadata full
name, then the empty string (the email local-part step is skipped);
with a lookup error or no row it is metadata full name, then the local
part of the email, then empty; in the exception path it is metadata
full name, then empty. -/
theorem claim_C1_amended (lookup : String → LookupOutcome) (now : String)
    (u : SupaUser) (p : ProfileRow) :
    (lookup u.id = LookupOutcome.found p →
       (truthyStr p.name = true →
          Option.map TexaUser.name (mapSupabaseUser lookup now (some u)) = some p.name)
       ∧ (truthyStr p.name = false → truthyStr u.fullName = true →
          Option.map TexaUser.name (mapSupabaseUser lookup now (some u)) = some u.fullName)
       ∧ (truthyStr p.name = false → truthyStr u.fullName = false →
          Option.map TexaUser.name (mapSupabaseUser lookup now (some u)) = some (some "")))
    ∧ (lookup u.id = LookupOutcome.errorOrMissing →
       (truthyStr u.fullName = true →
          Option.map TexaUser.name (mapSupabaseUser lookup now (some u)) = some u.fullName)
       ∧ (truthyStr u.fullName = false →
          Option.map TexaUser.name (mapSupabaseUser lookup now (some u))
            = some (some (orEmpty (Option.map localPart u.email)))))
    ∧ (lookup u.id = LookupOutcome.raised →
       Option.map TexaUser.name (mapSupabaseUser lookup now (some u))
         = some (some (orEmpty u.fullName))) := by
  refine ⟨fun hf => ⟨fun h1 => ?_, fun h1 h2 => ?_, fun h1 h2 => ?_⟩,
          fun he => ⟨fun h1 => ?_, fun h1 => ?_⟩, fun hr => ?_⟩
  · simp [mapSupabaseUser, hf, mergeProfile, jsOr_of_truthy _ h1,
      some_orEmpty_of_truthy h1]
  · simp [mapSupabaseUser, hf, mergeProfile, jsOr_of_falsy _ h1,
      some_orEmpty_of_truthy h2]
  · simp [mapSupabaseUser, hf, mergeProfile, jsOr_of_falsy _ h1,
      orEmpty_of_falsy h2]
  · simp [mapSupabaseUser, he, defaultFromSession, jsOr_of_truthy _ h1,
      some_orEmpty_of_truthy h1]
  · simp [mapSupabaseUser, he, defaultFromSession, jsOr_of_falsy _ h1]
  · simp [mapSupabaseUser, hr, catchFromSession]

/-- Witness for amended claim C1: a stored row with name Bob wins the
chain for a session with no metadata name. -/
theorem claim_C1_amended_witness :
    Option.map TexaUser.name
        (mapSupabaseUser
          (fun _ => LookupOutcome.found { sampleRow with name := some "Bob" })
          "T" (some sampleUser))
      = some (some "Bob") := by
  have h := (claim_C1_amended
      (fun _ => LookupOutcome.found { sampleRow with name := some "Bob" })
      "T" sampleUser { sampleRow with name := some "Bob" }).1 rfl
  exact h.1 (by decide)

/-- Claim C6: both in the stored-row merge of mapSupabaseUser and in
getUserById, an absent or null stored role maps to MEMBER and an
absent or null stored is_active maps to isActive true. -/
theorem claim_C6 (lookup : String → LookupOutcome) (now1 now2 : String)
    (u : SupaUser) (p : ProfileRow) (uid : String)
    (hu : lookup u.id = LookupOutcome.found p)
    (hid : lookup uid = LookupOutcome.found p) :
    (p.role = none →
       Option.map TexaUser.role (mapSupabaseUser lookup now1 (some u)) = some "MEMBER"
       ∧ Option.map TexaUser.role (getUserById lookup now2 uid) = some "MEMBER")
    ∧ (p.is_active = none →
       Option.map TexaUser.isActive (mapSupabaseUser lookup now1 (some u)) = some true
       ∧ Option.map TexaUser.isActive (getUserById lookup now2 uid) = some true) := by
  constructor
  · intro hr
    constructor
    · simp [mapSupabaseUser, hu, mergeProfile, jsOrD, hr]
    · simp [getUserById, hid, jsOrD, hr]
  · intro ha
    constructor
    · simp [mapSupabaseUser, hu, mergeProfile, ha]
    · simp [getUserById, hid, ha]

/-- Witness for claim C6 at a stored row with every nullable column
null. -/
theorem claim_C6_witness :
    Option.map TexaUser.role
        (mapSupabaseUser (fun _ => LookupOutcome.found sampleRow) "T" (some sampleUser))
      = some "MEMBER"
    ∧ Option.map TexaUser.role
        (getUserById (fun _ => LookupOutcome.found sampleRow) "T" "u1") = some "MEMBER"
    ∧ Option.map TexaUser.isActive
        (mapSupabaseUser (fun _ => LookupOutcome.found sampleRow) "T" (some sampleUser))
      = some true
    ∧ Option.map TexaUser.isActive
        (getUserById (fun _ => LookupOutcome.found sampleRow) "T" "u1") = some true := by
  have h := claim_C6 (fun _ => LookupOutcome.found sampleRow) "T" "T"
    sampleUser sampleRow "u1" rfl rfl
  exact ⟨(h.1 rfl).1, (h.1 rfl).2, (h.2 rfl).1, (h.2 rfl).2⟩

/-- Claim C7 as stated is false on the code: the upserted profile email
is the email of the provider-returned account, not the email given to
signUp; with a provider that returns a different address the two
disagree while the name is still the local part of the given email. -/
theorem claim_C7_counterexample :
    (signUp
        (SignUpResponse.okUser
          { id := "u1", email := some "b@example.com", fullName := none,
            avatarUrl := none, createdAt := "T0" })
        (fun _ => LookupOutcome.errorOrMissing) "T" "a@example.com" "pw" none).1
      = [{ id := "u1", email := some "b@example.com", name := "a", role := "MEMBER",
           is_active := true, created_at := "T", last_login := "T" }]
    ∧ (some "b@example.com" : Option String) ≠ some "a@example.com" :=
  ⟨rfl, by decide⟩

/-- Claim C7 amended: signUp with no display name, on provider success,
issues exactly one profile upsert whose name is the local part of the
given email, whose email is the provider-returned account email (equal
to the given email whenever the provider echoes it), with role MEMBER
and is_active true. -/
theorem claim_C7_amended (lookup : String → LookupOutcome)
    (now email pw : String) (u : SupaUser) :
    (signUp (SignUpResponse.okUser u) lookup now email pw none).1
      = [{ id := u.id, email := u.email, name := localPart email, role := "MEMBER",
           is_active := true, created_at := now, last_login := now }] :=
  rfl

/-- Claim C8: isAdmin is total, returns false on a store error, a
missing row or a raised lookup exception, and on a found row it is
true exactly when the stored role is the string ADMIN. -/
theorem claim_C8 (lookup : String → LookupOutcome) (uid : String) (p : ProfileRow) :
    (lookup uid = LookupOutcome.found p →
       (isAdmin lookup uid = true ↔ p.role = some "ADMIN"))
    ∧ (lookup uid = LookupOutcome.errorOrMissing → isAdmin lookup uid = false)
    ∧ (lookup uid = LookupOutcome.raised → isAdmin lookup uid = false) := by
  refine ⟨fun h => ?_, fun h => ?_, fun h => ?_⟩ <;> simp [isAdmin, h]

/-- Witness for claim C8: an ADMIN row decides true and an erroring
lookup decides false. -/
theorem claim_C8_witness :
    (isAdmin (fun _ => LookupOutcome.found { sampleRow with role := some "ADMIN" }) "u1" = true
       ↔ ({ sampleRow with role := some "ADMIN" } : ProfileRow).role = some "ADMIN")
    ∧ isAdmin (fun _ => LookupOutcome.errorOrMissing) "u1" = false := by
  have h1 := (claim_C8
      (fun _ => LookupOutcome.found { sampleRow with role := some "ADMIN" }) "u1"
      { sampleRow with role := some "ADMIN" }).1 rfl
  have h2 := (claim_C8 (fun _ => LookupOutcome.errorOrMissing) "u1" sampleRow).2.1 rfl
  exact ⟨h1, h2⟩

end Texa
